import Mathlib

/-!
Verification of the maple-proxy HTTP gateway core (`src/proxy.rs`,
`src/config.rs`, `src/lib.rs`) against its design specification.

The Rust code is shallowly embedded: each handler becomes a pure Lean
function, with the asynchronous backend operations (client construction,
attestation handshake, the backend calls and the chunk serializer) passed
in as function parameters; the backend stream is a finite list of results.
-/

set_option autoImplicit false

deriving instance DecidableEq for Except

namespace MapleProxy

/-! ## Wire error documents (`src/config.rs`, `OpenAIError`) -/

/-- Embeds `OpenAIErrorDetails` from `src/config.rs`: the client-visible
error payload with `message`, `type` (serialized name of `error_type`),
`param` and `code`. -/
structure OpenAIErrorDetails where
  message : String
  error_type : String
  param : Option String
  code : Option String
  deriving DecidableEq, Repr

/-- Embeds `OpenAIError` from `src/config.rs`: the wire error document. -/
structure OpenAIError where
  error : OpenAIErrorDetails
  deriving DecidableEq, Repr

/-- Embeds `OpenAIError::new`: `param` and `code` are always `None`. -/
def OpenAIError.new (message : String) (error_type : String) : OpenAIError :=
  { error := { message := message, error_type := error_type, param := none, code := none } }

/-- Embeds `OpenAIError::authentication_error`. -/
def OpenAIError.authentication_error (message : String) : OpenAIError :=
  OpenAIError.new message "invalid_request_error"

/-- Embeds `OpenAIError::server_error`. -/
def OpenAIError.server_error (message : String) : OpenAIError :=
  OpenAIError.new message "server_error"

/-! ## Credential resolution (`src/proxy.rs`, `extract_api_key`) -/

/-- An HTTP header value as seen by `HeaderMap::get("authorization")`:
either valid UTF-8 (where `to_str` succeeds with the string) or bytes that
are not valid UTF-8 (where `to_str` fails). -/
inductive HeaderValue where
  | valid (s : String)
  | invalid
  deriving DecidableEq, Repr

/-- Embeds Rust `auth_str.strip_prefix("Bearer ")` at the character level:
returns the remainder after the 7-character prefix `Bearer ` when the
string starts with it, and `none` otherwise. -/
def strip_bearer (s : String) : Option String :=
  match s.data with
  | 'B' :: 'e' :: 'a' :: 'r' :: 'e' :: 'r' :: ' ' :: rest => some (String.mk rest)
  | _ => none

/-- The message of the missing-credential error in `extract_api_key`. -/
def noApiKeyMsg : String :=
  "No API key provided. Set MAPLE_API_KEY environment variable or provide Authorization header"

/-- The trailing expression of `extract_api_key`: fall back to the default
API key from config, or fail. -/
def fallback_default_key (default_key : Option String) : Except OpenAIError String :=
  match default_key with
  | some k => Except.ok k
  | none => Except.error (OpenAIError.authentication_error noApiKeyMsg)

/-- Embeds `extract_api_key` from `src/proxy.rs`: if an authorization
header is present, a non-UTF8 value fails immediately; a UTF-8 value with
a `Bearer ` prefix resolves to the stripped token; otherwise (header
absent, or UTF-8 without the prefix) control falls through to the
configured default key. -/
def extract_api_key (auth : Option HeaderValue) (default_key : Option String) :
    Except OpenAIError String :=
  match auth with
  | some header =>
    match header with
    | HeaderValue.invalid =>
        Except.error (OpenAIError.authentication_error "Invalid Authorization header format")
    | HeaderValue.valid auth_str =>
      match strip_bearer auth_str with
      | some key => Except.ok key
      | none => fallback_default_key default_key
  | none => fallback_default_key default_key

/-! ## Secure client bootstrap (`src/proxy.rs`, `create_client_with_auth`) -/

/-- Embeds `create_client_with_auth` from `src/proxy.rs`. The two awaited
collaborator steps become parameters: `new_with_api_key` is the outcome of
`OpenSecretClient::new_with_api_key` (client construction), and
`perform_attestation_handshake` is the handshake on the constructed
client. A construction failure surfaces its cause; an attestation failure
is mapped to a fixed generic `server_error` document (the cause is only
logged). -/
def create_client_with_auth {Client : Type}
    (new_with_api_key : Except String Client)
    (perform_attestation_handshake : Client → Except String Unit) :
    Except OpenAIError Client :=
  match new_with_api_key with
  | Except.error e =>
      Except.error (OpenAIError.server_error ("Failed to create client: " ++ e))
  | Except.ok client =>
    match perform_attestation_handshake client with
    | Except.error _ =>
        Except.error
          (OpenAIError.server_error "Failed to establish secure connection with Maple backend")
    | Except.ok _ => Except.ok client

/-! ## Stream translation (`src/proxy.rs`, `create_sse_stream`) -/

/-- An outbound server-sent event. In the Rust code every event is built
by `Event::default().data(payload)`; the three constructors record which
of the three `yield` sites produced it and the payload it carries: a
serialized chunk, an in-band error document, or the literal `[DONE]`
sentinel. -/
inductive SseEvent where
  | data (payload : String)
  | error (payload : String)
  | done
  deriving DecidableEq, Repr

/-- Embeds `create_sse_stream` from `src/proxy.rs` over a finite backend
stream, given the serializer (`serde_json::to_string`) as a parameter.
Each `Ok` chunk that serializes yields one data event and the loop
continues; a serialization failure or a transport error yields one error
event and breaks out of the loop; after the loop (by exhaustion or by
`break`) the `[DONE]` sentinel is always yielded. -/
def create_sse_stream {α : Type} (serialize : α → Except String String) :
    List (Except String α) → List SseEvent
  | [] => [SseEvent.done]
  | chunk_result :: rest =>
    match chunk_result with
    | Except.ok chunk =>
      match serialize chunk with
      | Except.ok json => SseEvent.data json :: create_sse_stream serialize rest
      | Except.error e =>
          [SseEvent.error ("\x7b\"error\": \"Failed to serialize chunk: " ++ e ++ "\"\x7d"),
           SseEvent.done]
    | Except.error e =>
        [SseEvent.error ("\x7b\"error\": \"Stream error: " ++ e ++ "\"\x7d"), SseEvent.done]

/-- The error-event payload `create_sse_stream` produces for a failing
stream item, when the item fails: the transport-error format for an `Err`
item, the serialization-error format for an `Ok` chunk the serializer
rejects, and `none` for a chunk that serializes fine. -/
def failPayload {α : Type} (serialize : α → Except String String) :
    Except String α → Option String
  | Except.error e => some ("\x7b\"error\": \"Stream error: " ++ e ++ "\"\x7d")
  | Except.ok chunk =>
    match serialize chunk with
    | Except.error e =>
        some ("\x7b\"error\": \"Failed to serialize chunk: " ++ e ++ "\"\x7d")
    | Except.ok _ => none

/-! ## Request documents and handler results -/

/-- Embeds `ChatCompletionRequest`: the handler inspects only the `stream`
flag; every other field is carried opaquely in `rest`. -/
structure ChatCompletionRequest (Rest : Type) where
  stream : Option Bool
  rest : Rest
  deriving DecidableEq, Repr

/-- A successful chat-completion handler response: either an SSE response
(streaming) or a single JSON document (non-streaming). -/
inductive ChatResponse (Doc : Type) where
  | sse (events : List SseEvent)
  | json (doc : Doc)
  deriving DecidableEq, Repr

/-! ## Handlers (`src/proxy.rs`) -/

/-- Embeds `list_models` from `src/proxy.rs`. HTTP statuses are naturals;
failures are `(status, wire error document)` pairs. The backend
collaborators are parameters: `new_client` is client construction as a
function of the resolved API key, `handshake` the attestation step, and
`get_models` the backend call. -/
def list_models {Client Models : Type}
    (default_key : Option String) (auth : Option HeaderValue)
    (new_client : String → Except String Client)
    (handshake : Client → Except String Unit)
    (get_models : Client → Except String Models) :
    Except (Nat × OpenAIError) Models :=
  match extract_api_key auth default_key with
  | Except.error e => Except.error (401, e)
  | Except.ok api_key =>
    match create_client_with_auth (new_client api_key) handshake with
    | Except.error e => Except.error (500, e)
    | Except.ok client =>
      match get_models client with
      | Except.error e =>
          Except.error (500, OpenAIError.server_error ("Failed to retrieve models: " ++ e))
      | Except.ok models => Except.ok models

/-- Embeds `create_chat_completion` from `src/proxy.rs`. After credential
resolution and bootstrap it reads `request.stream.unwrap_or(false)`: the
streaming path calls `backend_stream` and pipes the resulting backend
stream through `create_sse_stream`; the non-streaming path first forces
`stream := some false` on the forwarded request and awaits the single
document from `backend_completion`. -/
def create_chat_completion {Client Doc Chunk Rest : Type}
    (default_key : Option String) (auth : Option HeaderValue)
    (request : ChatCompletionRequest Rest)
    (new_client : String → Except String Client)
    (handshake : Client → Except String Unit)
    (backend_stream :
      Client → ChatCompletionRequest Rest → Except String (List (Except String Chunk)))
    (serialize : Chunk → Except String String)
    (backend_completion : Client → ChatCompletionRequest Rest → Except String Doc) :
    Except (Nat × OpenAIError) (ChatResponse Doc) :=
  match extract_api_key auth default_key with
  | Except.error e => Except.error (401, e)
  | Except.ok api_key =>
    match create_client_with_auth (new_client api_key) handshake with
    | Except.error e => Except.error (500, e)
    | Except.ok client =>
      if request.stream.getD false then
        match backend_stream client request with
        | Except.error e =>
            Except.error
              (500, OpenAIError.server_error ("Failed to create streaming completion: " ++ e))
        | Except.ok stream => Except.ok (ChatResponse.sse (create_sse_stream serialize stream))
      else
        match backend_completion client { request with stream := some false } with
        | Except.error e =>
            Except.error (500, OpenAIError.server_error ("Failed to create completion: " ++ e))
        | Except.ok response => Except.ok (ChatResponse.json response)

/-- Embeds `create_embeddings` from `src/proxy.rs`: symmetric to
`list_models`, with the request document passed through to the backend
call. -/
def create_embeddings {Client Req Resp : Type}
    (default_key : Option String) (auth : Option HeaderValue)
    (request : Req)
    (new_client : String → Except String Client)
    (handshake : Client → Except String Unit)
    (backend_embeddings : Client → Req → Except String Resp) :
    Except (Nat × OpenAIError) Resp :=
  match extract_api_key auth default_key with
  | Except.error e => Except.error (401, e)
  | Except.ok api_key =>
    match create_client_with_auth (new_client api_key) handshake with
    | Except.error e => Except.error (500, e)
    | Except.ok client =>
      match backend_embeddings client request with
      | Except.error e =>
          Except.error (500, OpenAIError.server_error ("Failed to create embeddings: " ++ e))
      | Except.ok response => Except.ok response

/-! ## Health check and routing (`src/proxy.rs` `health_check`, `src/lib.rs` `create_app`) -/

/-- The body of the health-check response. -/
structure HealthBody where
  status : String
  service : String
  version : String
  deriving DecidableEq, Repr

/-- Embeds `health_check` from `src/proxy.rs`: a constant function of the
compile-time package version (`CARGO_PKG_VERSION`, not part of the
sources), returning HTTP 200 and the fixed body. It reads nothing from
the request and touches no state. -/
def health_check (version : String) : Nat × HealthBody :=
  (200, { status := "ok", service := "maple-proxy", version := version })

/-- The handlers `create_app` (in `src/lib.rs`) can route a request to. -/
inductive RouteHandler where
  | health_check
  | list_models
  | chat_completions
  deriving DecidableEq, Repr

/-- Embeds the route table of `create_app` from `src/lib.rs` as a path
map: `/health` and `/` both go to `health_check`, `/v1/models` to
`list_models`, `/v1/chat/completions` to `create_chat_completion`. -/
def create_app_route (path : String) : Option RouteHandler :=
  if path = "/health" then some RouteHandler.health_check
  else if path = "/" then some RouteHandler.health_check
  else if path = "/v1/models" then some RouteHandler.list_models
  else if path = "/v1/chat/completions" then some RouteHandler.chat_completions
  else none

/-! ## Lemmas about credential resolution -/

theorem strip_bearer_append (X : String) : strip_bearer ("Bearer " ++ X) = some X := by
  obtain ⟨l⟩ := X
  rfl

/-- C5: for every request whose Authorization header value is exactly
`Bearer X`, credential resolution succeeds with exactly `X`, whatever
default credential is configured. -/
theorem extract_api_key_bearer_exact (X : String) (default_key : Option String) :
    extract_api_key (some (HeaderValue.valid ("Bearer " ++ X))) default_key =
      Except.ok X := by
  simp [extract_api_key, strip_bearer_append]

/-- C2 counterexample: an Authorization header that is valid UTF-8 but
lacks the `Bearer ` prefix does not fail when a default credential is
configured — resolution succeeds with the default, contradicting the
claim that any non-`Bearer` form fails with a malformed-credential
error. -/
theorem extract_api_key_no_bearer_uses_default :
    extract_api_key (some (HeaderValue.valid "Basic xyz")) (some "dflt") =
        Except.ok "dflt" ∧
      extract_api_key (some (HeaderValue.valid "Basic xyz")) (some "dflt") ≠
        Except.error (OpenAIError.authentication_error "Invalid Authorization header format") :=
  ⟨rfl, by decide⟩

/-- C2 amended: a non-UTF8 Authorization value fails with the
malformed-credential error regardless of any configured default, while a
valid-UTF8 value without the `Bearer ` prefix is treated exactly as if no
Authorization header were present: resolution falls back to the
configured default. -/
theorem extract_api_key_malformed_amended (s : String) (default_key : Option String)
    (h : strip_bearer s = none) :
    extract_api_key (some (HeaderValue.valid s)) default_key =
        extract_api_key none default_key ∧
      extract_api_key (some HeaderValue.invalid) default_key =
        Except.error (OpenAIError.authentication_error "Invalid Authorization header format") := by
  constructor
  · simp [extract_api_key, h]
  · rfl

theorem extract_api_key_malformed_amended_witness :
    strip_bearer "Basic xyz" = none ∧
      (extract_api_key (some (HeaderValue.valid "Basic xyz")) (some "dflt") =
          extract_api_key none (some "dflt") ∧
        extract_api_key (some HeaderValue.invalid) (some "dflt") =
          Except.error
            (OpenAIError.authentication_error "Invalid Authorization header format")) :=
  ⟨by decide, extract_api_key_malformed_amended "Basic xyz" (some "dflt") (by decide)⟩

/-- C4: with no Authorization header and no configured default
credential, all three operation handlers fail with HTTP status 401 and a
wire error document whose `type` field is `invalid_request_error`. -/
theorem handlers_missing_credential_401 {Client Models Doc Chunk Rest Req Resp : Type}
    (new_client : String → Except String Client)
    (handshake : Client → Except String Unit)
    (get_models : Client → Except String Models)
    (request : ChatCompletionRequest Rest)
    (backend_stream :
      Client → ChatCompletionRequest Rest → Except String (List (Except String Chunk)))
    (serialize : Chunk → Except String String)
    (backend_completion : Client → ChatCompletionRequest Rest → Except String Doc)
    (erequest : Req)
    (backend_embeddings : Client → Req → Except String Resp) :
    list_models none none new_client handshake get_models =
        Except.error (401, OpenAIError.authentication_error noApiKeyMsg) ∧
      create_chat_completion none none request new_client handshake backend_stream
          serialize backend_completion =
        Except.error (401, OpenAIError.authentication_error noApiKeyMsg) ∧
      create_embeddings none none erequest new_client handshake backend_embeddings =
        Except.error (401, OpenAIError.authentication_error noApiKeyMsg) ∧
      (OpenAIError.authentication_error noApiKeyMsg).error.error_type =
        "invalid_request_error" :=
  ⟨rfl, rfl, rfl, rfl⟩

/-! ## Lemmas about the stream translator -/

theorem create_sse_stream_append_ok {α : Type} (serialize : α → Except String String)
    (f : α → String) (chunks : List α)
    (h : ∀ c ∈ chunks, serialize c = Except.ok (f c)) (tail : List (Except String α)) :
    create_sse_stream serialize (chunks.map Except.ok ++ tail) =
      chunks.map (fun c => SseEvent.data (f c)) ++ create_sse_stream serialize tail := by
  induction chunks with
  | nil => simp
  | cons c cs ih =>
    have hc : serialize c = Except.ok (f c) := h c (by simp)
    have hcs : ∀ x ∈ cs, serialize x = Except.ok (f x) := fun x hx => h x (by simp [hx])
    simp [create_sse_stream, hc, ih hcs]

/-- C3: when every backend item is a successful chunk and every chunk
serializes, the outbound sequence is the serialized chunks in order, one
data event each, terminated by exactly one `[DONE]` sentinel — in
particular it is non-empty and the sentinel is the final event. -/
theorem create_sse_stream_all_ok {α : Type} (serialize : α → Except String String)
    (f : α → String) (chunks : List α)
    (h : ∀ c ∈ chunks, serialize c = Except.ok (f c)) :
    create_sse_stream serialize (chunks.map Except.ok) =
      chunks.map (fun c => SseEvent.data (f c)) ++ [SseEvent.done] := by
  have happ := create_sse_stream_append_ok serialize f chunks h []
  simpa [create_sse_stream] using happ

theorem create_sse_stream_all_ok_witness :
    (∀ c ∈ (["c1", "c2"] : List String),
        (Except.ok c : Except String String) = Except.ok (id c)) ∧
      create_sse_stream (fun s : String => Except.ok s)
          ((["c1", "c2"] : List String).map Except.ok) =
        (["c1", "c2"] : List String).map (fun c => SseEvent.data (id c)) ++ [SseEvent.done] :=
  ⟨by decide,
    create_sse_stream_all_ok (fun s : String => Except.ok s) id ["c1", "c2"] (by decide)⟩

/-- C1 counterexample: a backend stream that fails immediately (zero
successful chunks) produces the error event and then the `[DONE]`
sentinel — the sequence does not terminate at the error event, so a
terminal sentinel does follow the error event, contrary to the claim. -/
theorem create_sse_stream_error_counterexample :
    create_sse_stream (fun s : String => Except.ok s) [Except.error "boom"] =
        [SseEvent.error "\x7b\"error\": \"Stream error: boom\"\x7d", SseEvent.done] ∧
      (create_sse_stream (fun s : String => Except.ok s) [Except.error "boom"]).getLast? =
        some SseEvent.done :=
  ⟨rfl, rfl⟩

/-- C1 amended: if the backend stream yields an error (transport error,
or a chunk whose serialization fails) after N successfully serialized
chunks, the outbound sequence is exactly the N data events, then exactly
one error event, then exactly one terminal `[DONE]` sentinel; nothing
after the failing item is read (the output does not depend on `rest`). -/
theorem create_sse_stream_error_amended {α : Type} (serialize : α → Except String String)
    (f : α → String) (chunks : List α)
    (h : ∀ c ∈ chunks, serialize c = Except.ok (f c))
    (bad : Except String α) (p : String) (hbad : failPayload serialize bad = some p)
    (rest : List (Except String α)) :
    create_sse_stream serialize (chunks.map Except.ok ++ bad :: rest) =
      chunks.map (fun c => SseEvent.data (f c)) ++ [SseEvent.error p, SseEvent.done] := by
  rw [create_sse_stream_append_ok serialize f chunks h]
  cases bad with
  | error e =>
    simp only [failPayload, Option.some.injEq] at hbad
    simp [create_sse_stream, hbad]
  | ok c =>
    cases hs : serialize c with
    | error e =>
      rw [failPayload] at hbad
      rw [hs] at hbad
      simp only [Option.some.injEq] at hbad
      simp [create_sse_stream, hs, hbad]
    | ok j =>
      rw [failPayload] at hbad
      rw [hs] at hbad
      exact absurd hbad (by simp)

theorem create_sse_stream_error_amended_witness :
    (∀ c ∈ (["c1"] : List String),
        (Except.ok c : Except String String) = Except.ok (id c)) ∧
      failPayload (fun s : String => Except.ok s) (Except.error "boom") =
        some "\x7b\"error\": \"Stream error: boom\"\x7d" ∧
      create_sse_stream (fun s : String => Except.ok s)
          ((["c1"] : List String).map Except.ok ++
            Except.error "boom" :: [Except.ok "ignored"]) =
        (["c1"] : List String).map (fun c => SseEvent.data (id c)) ++
          [SseEvent.error "\x7b\"error\": \"Stream error: boom\"\x7d", SseEvent.done] :=
  ⟨by decide, by decide,
    create_sse_stream_error_amended (fun s : String => Except.ok s) id ["c1"] (by decide)
      (Except.error "boom") "\x7b\"error\": \"Stream error: boom\"\x7d" (by decide)
      [Except.ok "ignored"]⟩

/-- C9: for every finite backend stream — empty, all-successful, or
ending in a transport or serialization failure — the outbound sequence is
non-empty and its final event is the `[DONE]` sentinel. -/
theorem create_sse_stream_ends_done {α : Type} (serialize : α → Except String String)
    (stream : List (Except String α)) :
    create_sse_stream serialize stream ≠ [] ∧
      (create_sse_stream serialize stream).getLast? = some SseEvent.done := by
  have h : ∃ events, create_sse_stream serialize stream = events ++ [SseEvent.done] := by
    induction stream with
    | nil => exact ⟨[], rfl⟩
    | cons x rest ih =>
      cases x with
      | error e =>
        exact ⟨[SseEvent.error ("\x7b\"error\": \"Stream error: " ++ e ++ "\"\x7d")],
          by simp [create_sse_stream]⟩
      | ok c =>
        cases hs : serialize c with
        | error e =>
          exact ⟨[SseEvent.error ("\x7b\"error\": \"Failed to serialize chunk: " ++ e ++ "\"\x7d")],
            by simp [create_sse_stream, hs]⟩
        | ok j =>
          obtain ⟨events, he⟩ := ih
          exact ⟨SseEvent.data j :: events, by simp [create_sse_stream, hs, he]⟩
  obtain ⟨events, he⟩ := h
  rw [he]
  exact ⟨by simp, List.getLast?_concat events⟩

/-! ## Lemmas about the handlers -/

/-- C6: when the `stream` flag is `false` or absent, the chat-completion
handler (after credential resolution and bootstrap succeed) forwards the
request with `stream` forced to `Some(false)` and every other field
unchanged, and its outcome is exactly the outcome of the single
non-streaming backend call on that forwarded request, returned whole. -/
theorem chat_completion_nonstreaming {Client Doc Chunk Rest : Type}
    (default_key : Option String) (auth : Option HeaderValue)
    (request : ChatCompletionRequest Rest)
    (new_client : String → Except String Client)
    (handshake : Client → Except String Unit)
    (backend_stream :
      Client → ChatCompletionRequest Rest → Except String (List (Except String Chunk)))
    (serialize : Chunk → Except String String)
    (backend_completion : Client → ChatCompletionRequest Rest → Except String Doc)
    (api_key : String) (client : Client)
    (hstream : request.stream.getD false = false)
    (hkey : extract_api_key auth default_key = Except.ok api_key)
    (hclient : create_client_with_auth (new_client api_key) handshake = Except.ok client) :
    ({ request with stream := some false } : ChatCompletionRequest Rest).stream = some false ∧
      ({ request with stream := some false } : ChatCompletionRequest Rest).rest =
        request.rest ∧
      create_chat_completion default_key auth request new_client handshake backend_stream
          serialize backend_completion =
        (match backend_completion client { request with stream := some false } with
          | Except.ok doc => Except.ok (ChatResponse.json doc)
          | Except.error e =>
              Except.error
                (500, OpenAIError.server_error ("Failed to create completion: " ++ e))) := by
  refine ⟨rfl, rfl, ?_⟩
  simp only [create_chat_completion, hkey, hclient, hstream, Bool.false_eq_true, if_false]
  cases backend_completion client { request with stream := some false } <;> rfl

theorem chat_completion_nonstreaming_witness :
    (((⟨none, 7⟩ : ChatCompletionRequest Nat).stream.getD false = false) ∧
        extract_api_key (some (HeaderValue.valid "Bearer k")) none = Except.ok "k" ∧
        create_client_with_auth ((fun _ : String => (Except.ok () : Except String Unit)) "k")
            (fun _ => Except.ok ()) =
          Except.ok ()) ∧
      @create_chat_completion Unit String String Nat none
          (some (HeaderValue.valid "Bearer k")) (⟨none, 7⟩ : ChatCompletionRequest Nat)
          (fun _ => Except.ok ()) (fun _ => Except.ok ())
          (fun _ _ => Except.ok []) (fun s => Except.ok s)
          (fun _ _ => Except.ok "resp") =
        (match (fun (_ : Unit) (_ : ChatCompletionRequest Nat) =>
              (Except.ok "resp" : Except String String)) ()
            { (⟨none, 7⟩ : ChatCompletionRequest Nat) with stream := some false } with
          | Except.ok doc => Except.ok (ChatResponse.json doc)
          | Except.error e =>
              Except.error
                (500, OpenAIError.server_error ("Failed to create completion: " ++ e))) :=
  ⟨⟨rfl, by decide, rfl⟩,
    (chat_completion_nonstreaming none (some (HeaderValue.valid "Bearer k"))
        (⟨none, 7⟩ : ChatCompletionRequest Nat) (fun _ => Except.ok ()) (fun _ => Except.ok ())
        (fun _ _ => Except.ok []) (fun s => Except.ok s) (fun _ _ => Except.ok "resp")
        "k" () rfl (by decide) rfl).2.2⟩

/-- C7: every handler resolves the credential first, then bootstraps the
secure client, and a failure of either step short-circuits: the result is
the corresponding normalized error, a constant that does not depend on
the (universally quantified) backend operations `get_models`,
`backend_stream`, `backend_completion`, `backend_embeddings` — so no
backend operation can have been invoked. -/
theorem handlers_short_circuit {Client Models Doc Chunk Rest Req Resp : Type}
    (dk1 : Option String) (auth1 : Option HeaderValue) (e1 : OpenAIError)
    (dk2 : Option String) (auth2 : Option HeaderValue) (api_key : String) (e2 : OpenAIError)
    (new_client : String → Except String Client)
    (handshake : Client → Except String Unit)
    (get_models : Client → Except String Models)
    (request : ChatCompletionRequest Rest)
    (backend_stream :
      Client → ChatCompletionRequest Rest → Except String (List (Except String Chunk)))
    (serialize : Chunk → Except String String)
    (backend_completion : Client → ChatCompletionRequest Rest → Except String Doc)
    (erequest : Req)
    (backend_embeddings : Client → Req → Except String Resp)
    (h1 : extract_api_key auth1 dk1 = Except.error e1)
    (h2 : extract_api_key auth2 dk2 = Except.ok api_key)
    (h3 : create_client_with_auth (new_client api_key) handshake = Except.error e2) :
    list_models dk1 auth1 new_client handshake get_models = Except.error (401, e1) ∧
      create_chat_completion dk1 auth1 request new_client handshake backend_stream
          serialize backend_completion =
        Except.error (401, e1) ∧
      create_embeddings dk1 auth1 erequest new_client handshake backend_embeddings =
        Except.error (401, e1) ∧
      list_models dk2 auth2 new_client handshake get_models = Except.error (500, e2) ∧
      create_chat_completion dk2 auth2 request new_client handshake backend_stream
          serialize backend_completion =
        Except.error (500, e2) ∧
      create_embeddings dk2 auth2 erequest new_client handshake backend_embeddings =
        Except.error (500, e2) := by
  refine ⟨?_, ?_, ?_, ?_, ?_, ?_⟩ <;>
    simp [list_models, create_chat_completion, create_embeddings, h1, h2, h3]

theorem handlers_short_circuit_witness :
    (extract_api_key none none =
          Except.error (OpenAIError.authentication_error noApiKeyMsg) ∧
        extract_api_key (some (HeaderValue.valid "Bearer k")) none = Except.ok "k" ∧
        create_client_with_auth
            ((fun _ : String => (Except.ok () : Except String Unit)) "k")
            (fun _ => Except.error "attestation refused") =
          Except.error
            (OpenAIError.server_error
              "Failed to establish secure connection with Maple backend")) ∧
      @list_models Unit Unit none none (fun _ => Except.ok ())
          (fun _ => Except.error "attestation refused") (fun _ => Except.ok ()) =
        Except.error (401, OpenAIError.authentication_error noApiKeyMsg) ∧
      @list_models Unit Unit none (some (HeaderValue.valid "Bearer k"))
          (fun _ => Except.ok ()) (fun _ => Except.error "attestation refused")
          (fun _ => Except.ok ()) =
        Except.error
          (500,
            OpenAIError.server_error
              "Failed to establish secure connection with Maple backend") :=
  ⟨⟨rfl, by decide, rfl⟩,
    (@handlers_short_circuit Unit Unit Unit Unit Unit Unit Unit
        none none (OpenAIError.authentication_error noApiKeyMsg) none
        (some (HeaderValue.valid "Bearer k")) "k"
        (OpenAIError.server_error "Failed to establish secure connection with Maple backend")
        (fun _ => Except.ok ()) (fun _ => Except.error "attestation refused")
        (fun _ => Except.ok ()) ⟨none, ()⟩ (fun _ _ => Except.ok []) (fun _ => Except.ok "")
        (fun _ _ => Except.ok ()) () (fun _ _ => Except.ok ()) rfl (by decide) rfl).1,
    (@handlers_short_circuit Unit Unit Unit Unit Unit Unit Unit
        none none (OpenAIError.authentication_error noApiKeyMsg) none
        (some (HeaderValue.valid "Bearer k")) "k"
        (OpenAIError.server_error "Failed to establish secure connection with Maple backend")
        (fun _ => Except.ok ()) (fun _ => Except.error "attestation refused")
        (fun _ => Except.ok ()) ⟨none, ()⟩ (fun _ _ => Except.ok []) (fun _ => Except.ok "")
        (fun _ _ => Except.ok ()) () (fun _ _ => Except.ok ()) rfl (by decide) rfl).2.2.2.1⟩

/-- C8: when client construction succeeds and the attestation handshake
fails, the caller-visible result is HTTP 500 with the fixed generic
`server_error` document, and it is identical for any two distinct
attestation failure causes — the cause never reaches the caller. -/
theorem attestation_failure_generic {Client Models : Type}
    (client : Client) (hs1 hs2 : Client → Except String Unit) (e1 e2 : String)
    (hf1 : hs1 client = Except.error e1) (hf2 : hs2 client = Except.error e2)
    (new_client : String → Except String Client) (api_key : String)
    (hnc : new_client api_key = Except.ok client)
    (get_models : Client → Except String Models)
    (auth : Option HeaderValue) (default_key : Option String)
    (hkey : extract_api_key auth default_key = Except.ok api_key) :
    create_client_with_auth (Except.ok client) hs1 =
        Except.error
          (OpenAIError.server_error
            "Failed to establish secure connection with Maple backend") ∧
      create_client_with_auth (Except.ok client) hs1 =
        create_client_with_auth (Except.ok client) hs2 ∧
      list_models default_key auth new_client hs1 get_models =
        Except.error
          (500,
            OpenAIError.server_error
              "Failed to establish secure connection with Maple backend") ∧
      list_models default_key auth new_client hs1 get_models =
        list_models default_key auth new_client hs2 get_models := by
  refine ⟨?_, ?_, ?_, ?_⟩ <;>
    simp [create_client_with_auth, list_models, hf1, hf2, hkey, hnc]

theorem attestation_failure_generic_witness :
    ((fun _ : Unit => (Except.error "cause A" : Except String Unit)) () =
          Except.error "cause A" ∧
        (fun _ : Unit => (Except.error "cause B" : Except String Unit)) () =
          Except.error "cause B" ∧
        (fun _ : String => (Except.ok () : Except String Unit)) "k" = Except.ok () ∧
        extract_api_key (some (HeaderValue.valid "Bearer k")) none = Except.ok "k") ∧
      create_client_with_auth (Except.ok ()) (fun _ : Unit => Except.error "cause A") =
        create_client_with_auth (Except.ok ()) (fun _ : Unit => Except.error "cause B") :=
  ⟨⟨rfl, rfl, rfl, by decide⟩,
    (@attestation_failure_generic Unit Unit () (fun _ => Except.error "cause A")
        (fun _ => Except.error "cause B") "cause A" "cause B" rfl rfl
        (fun _ => Except.ok ()) "k" rfl (fun _ => Except.ok ())
        (some (HeaderValue.valid "Bearer k")) none (by decide)).2.1⟩

/-- C10: `/health` and `/` both route to the health-check handler, which
is a constant function of no request data: it returns HTTP 200 with the
fixed `ok`/`maple-proxy`/version body, and any number of repeated calls
yields the identical response. -/
theorem health_check_constant (version : String) :
    create_app_route "/health" = some RouteHandler.health_check ∧
      create_app_route "/" = some RouteHandler.health_check ∧
      health_check version =
        (200, { status := "ok", service := "maple-proxy", version := version }) ∧
      ∀ n : Nat,
        List.replicate n (health_check version) =
          List.replicate n
            (200,
              ({ status := "ok", service := "maple-proxy", version := version } :
                HealthBody)) :=
  ⟨by decide, by decide, rfl, fun n => rfl⟩

end MapleProxy
